import Mathlib

/-!
Shallow embedding of the chat query-orchestration pipeline in
src/app/api/chat/route.ts.

External effectful calls (OpenAI completions, the embedding provider, the
Postgres vector query, the links enrichment fetch) are modelled by an
Oracle record carrying the observable outcome of each call: a completion
call yields an optional message content (None models a null content
field), a fallible call is an Except value whose error case models a
thrown exception.  The pipeline function mirrors the control flow of the
source line by line and additionally returns the number of times each
external operation was invoked, so that call-count invariants can be
stated.  JavaScript string primitives (trim, toUpperCase, one-occurrence
replace, truthiness) are embedded as executable Lean functions below.
-/

namespace ChatRoute

/-- JavaScript String.prototype.trim on a character list: drop whitespace
from both ends. -/
def trimChars (l : List Char) : List Char :=
  ((l.dropWhile Char.isWhitespace).reverse.dropWhile Char.isWhitespace).reverse

/-- JavaScript trim on strings. -/
def jsTrim (s : String) : String := ⟨trimChars s.data⟩

/-- JavaScript toUpperCase (ASCII fragment, matching Char.toUpper). -/
def jsToUpper (s : String) : String := ⟨s.data.map Char.toUpper⟩

/-- JavaScript String.prototype.replace with a string pattern replaces only
the first occurrence of the pattern; helper on character lists. -/
def listReplaceFirst (pat rep : List Char) : List Char → List Char
  | [] => if pat.isPrefixOf ([] : List Char) then rep else []
  | c :: cs =>
      if pat.isPrefixOf (c :: cs) then rep ++ (c :: cs).drop pat.length
      else c :: listReplaceFirst pat rep cs

/-- JavaScript s.replace(pat, rep) for a string pattern: first occurrence
only. -/
def jsReplace (s pat rep : String) : String :=
  ⟨listReplaceFirst pat.data rep.data s.data⟩

/-- JavaScript a.slice(-n) on arrays: the final n elements (the whole array
when it is shorter). -/
def sliceLast {α : Type} (n : Nat) (l : List α) : List α :=
  l.drop (l.length - n)

/-- Chat message as in the ChatHistory interface of route.ts. -/
structure ChatHistory where
  role : String
  content : String
deriving DecidableEq, Repr

/-- Retrieved document as in the Document interface of route.ts.  The
similarity score, produced by SQL arithmetic in the database, is modelled
as a rational number. -/
structure Document where
  id : String
  text : String
  title : String
  url : String
  chunk_id : String
  similarity_score : ℚ
deriving DecidableEq, Repr

/-- The metadata record of PipelineResponse in route.ts. -/
structure PipelineMetadata where
  input : String
  output : String
  contextCount : Nat
  rewrittenQuery : String
  responseType : String
deriving DecidableEq, Repr

/-- PipelineResponse interface of route.ts. -/
structure PipelineResponse where
  text : String
  type : String
  metadata : PipelineMetadata
deriving DecidableEq, Repr

/-- A row of the vector table as the searchNeonDb SQL sees it: the payload
columns plus an optional vector column (None models SQL NULL). -/
structure DbRow where
  id : String
  text : String
  title : String
  url : String
  chunk_id : String
  vector : Option (List ℚ)
deriving DecidableEq, Repr

/-- JSON.stringify of one chat message (for messages whose role and content
need no JSON escaping, which covers every prompt comparison below). -/
def stringifyMessage (m : ChatHistory) : String :=
  "\x7b\"role\":\"" ++ m.role ++ "\",\"content\":\"" ++ m.content ++ "\"\x7d"

/-- JavaScript Array.prototype.join(sep): empty array gives the empty
string, otherwise the elements separated by sep. -/
def jsJoin (sep : String) : List String → String
  | [] => ""
  | [a] => a
  | a :: b :: t => a ++ sep ++ jsJoin sep (b :: t)

/-- JSON.stringify of a chat-history array. -/
def stringifyHistory (l : List ChatHistory) : String :=
  "[" ++ jsJoin "," (l.map stringifyMessage) ++ "]"

/-- The classification prompt built in checkRelevance (route.ts lines
127-136); note the chatHistory.slice(-5). -/
def relevancePrompt (query : String) (chatHistory : List ChatHistory) : String :=
  "Given this question and chat history, determine if it is:\n" ++
  "1. A greeting/send-off (GREETING)\n" ++
  "2. Related to woodworking/tools/company (RELEVANT)\n" ++
  "3. Inappropriate content (INAPPROPRIATE)\n" ++
  "4. Unrelated (NOT_RELEVANT)\n\n" ++
  "Chat History: " ++ stringifyHistory (sliceLast 5 chatHistory) ++ "\n" ++
  "Current Question: " ++ query ++ "\n\n" ++
  "Response (GREETING, RELEVANT, INAPPROPRIATE, or NOT_RELEVANT):"

/-- The rewrite prompt built in rewriteQuery (route.ts lines 155-162); it
stringifies the whole chatHistory argument, with no slice. -/
def rewritePrompt (query : String) (chatHistory : List ChatHistory) : String :=
  "You are bent\x27s woodworks assistant so question will be related to wood shop. \n" ++
  "Rewrites user query to make them more specific and searchable, taking into account \n" ++
  "the chat history if provided. Only return the rewritten query without any explanations.\n\n" ++
  "Original query: " ++ query ++ "\n" ++
  "Chat history: " ++ stringifyHistory chatHistory ++ "\n\n" ++
  "Rewritten query:"

/-- The user turn of the final generation call (route.ts line 355); note
the messages.slice(-5). -/
def generationUserPrompt (messages : List ChatHistory) (contextTexts : String)
    (lastUserMessage : String) : String :=
  "Chat History:\n" ++ stringifyHistory (sliceLast 5 messages) ++
  "\n\nContext:\n" ++ contextTexts ++ "\n\nQuestion: " ++ lastUserMessage

/-- Parsing of the classifier response (route.ts line 147):
content?.trim().toUpperCase() || NOT_RELEVANT.  A null content or an
empty trimmed string yields NOT_RELEVANT; any other string is returned
verbatim after trimming and uppercasing. -/
def checkRelevance (content : Option String) : String :=
  match content with
  | none => "NOT_RELEVANT"
  | some c =>
      let t := jsToUpper (jsTrim c)
      if t = "" then "NOT_RELEVANT" else t

/-- rewriteQuery (route.ts lines 150-175).  The completion call outcome is
the resp argument: a thrown error is Except.error, a null message content
is Except.ok none.  On success the code removes the first occurrence of
the literal label, trims, and falls back to the original query when the
cleaned response is empty or the content was null; on a thrown error it
returns the original query. -/
def rewriteQuery (query : String) (resp : Except Unit (Option String)) : String :=
  match resp with
  | .error _ => query
  | .ok none => query
  | .ok (some content) =>
      let cleaned := jsTrim (jsReplace content "Rewritten query:" "")
      if cleaned = "" then query else cleaned

/-- DatabaseService.searchNeonDb (route.ts lines 73-111).  The SQL selects
the rows whose vector column is not NULL, orders them by ascending
distance of the row vector from the query embedding, limits to topK, and
computes similarity_score = 1 - distance.  The pgvector distance operator
is external to the repository and is passed in as an abstract function;
ORDER BY is realised by a sort with respect to the distance key. -/
def searchNeonDb (dist : List ℚ → List ℚ → ℚ) (queryEmbedding : List ℚ)
    (table : List DbRow) (topK : Nat) : List Document :=
  let rows := table.filter fun r => r.vector.isSome
  let sorted := List.insertionSort
    (fun a b : DbRow =>
      dist (a.vector.getD []) queryEmbedding ≤ dist (b.vector.getD []) queryEmbedding) rows
  (sorted.take topK).map fun r =>
    { id := r.id, text := r.text, title := r.title, url := r.url,
      chunk_id := r.chunk_id,
      similarity_score := 1 - dist (r.vector.getD []) queryEmbedding }

/-- The context assembly of route.ts lines 317-319: each document becomes a
3-line block and the blocks are joined by a blank line, in input order. -/
def assembleContext (docs : List Document) : String :=
  jsJoin "\n\n" (docs.map fun d =>
    "Source: " ++ d.title ++ "\nContent: " ++ d.text ++ "\nURL: " ++ d.url)

/-- Observable outcomes of the external calls a single request may make.
Completion contents are Option String (None models a null content field);
fallible stages are Except values whose error constructor models a thrown
exception.  The pgvector distance operator and the table contents stand in
for the database state. -/
structure Oracle where
  classifyContent : Option String
  greetContent : Option String
  notRelevantContent : Option String
  rewriteResp : Except Unit (Option String)
  embedResp : Except Unit (List ℚ)
  dist : List ℚ → List ℚ → ℚ
  dbTable : List DbRow
  linksResp : Except Unit String
  generateContent : Option String

/-- How many times each external operation ran during one pipeline
invocation.  classifyCalls counts the completion call of checkRelevance;
rewriteCalls the completion call attempted by rewriteQuery; answerCalls
the remaining completion calls (greeting, not-relevant deflection, final
generation); linksCalls the enrichment fetch. -/
structure CallCounts where
  classifyCalls : Nat
  rewriteCalls : Nat
  embedCalls : Nat
  searchCalls : Nat
  linksCalls : Nat
  answerCalls : Nat
deriving DecidableEq, Repr

/-- Errors that escape the pipeline closure and are caught by the outer
try/catch of POST. -/
inductive PipelineError where
  | embedFailure
  | linksFailure
deriving DecidableEq, Repr

/-- The greeting short-circuit branch (route.ts lines 259-270). -/
def greetingBranch (o : Oracle) (lastUserMessage : String) : PipelineResponse :=
  let answer := o.greetContent.getD ""
  { text := answer, type := "greeting",
    metadata := { input := lastUserMessage, output := answer, contextCount := 0,
                  rewrittenQuery := "", responseType := "greeting" } }

/-- The fixed static answer of the inappropriate branch (route.ts line 272). -/
def inappropriateAnswer : String :=
  "I apologize, but I cannot assist with inappropriate content or queries that could cause harm. I\x27m here to help with woodworking and furniture making questions only."

/-- The inappropriate short-circuit branch (route.ts lines 271-274). -/
def inappropriateBranch (lastUserMessage : String) : PipelineResponse :=
  { text := inappropriateAnswer, type := "inappropriate",
    metadata := { input := lastUserMessage, output := inappropriateAnswer, contextCount := 0,
                  rewrittenQuery := "", responseType := "inappropriate" } }

/-- The not-relevant short-circuit branch (route.ts lines 275-292). -/
def notRelevantBranch (o : Oracle) (lastUserMessage : String) : PipelineResponse :=
  let answer := o.notRelevantContent.getD ""
  { text := answer, type := "not-relevant",
    metadata := { input := lastUserMessage, output := answer, contextCount := 0,
                  rewrittenQuery := "", responseType := "not-relevant" } }

/-- The chat PipelineResponse of the relevant branch (route.ts lines
360-371); contextCount is similarDocs?.length || 0, which equals the
length. -/
def chatResult (o : Oracle) (lastUserMessage rewrittenQuery : String)
    (similarDocs : List Document) : PipelineResponse :=
  let answer := o.generateContent.getD ""
  { text := answer, type := "chat",
    metadata := { input := lastUserMessage, output := answer,
                  contextCount := similarDocs.length,
                  rewrittenQuery := rewrittenQuery, responseType := "chat" } }

/-- The relevant branch of the pipeline (route.ts lines 296-371): query
rewrite, embedding (failure propagates), vector search, context assembly,
the enrichment fetch guarded by JavaScript truthiness of contextTexts
(failure of the un-guarded await propagates), then the final generation
call. -/
def relevantBranch (o : Oracle) (lastUserMessage : String) :
    Except PipelineError PipelineResponse × CallCounts :=
  let rewrittenQuery := rewriteQuery lastUserMessage o.rewriteResp
  match o.embedResp with
  | .error _ => (.error .embedFailure, ⟨1, 1, 1, 0, 0, 0⟩)
  | .ok embedding =>
      let similarDocs := searchNeonDb o.dist embedding o.dbTable 10
      let contextTexts := assembleContext similarDocs
      if contextTexts ≠ "" then
        match o.linksResp with
        | .error _ => (.error .linksFailure, ⟨1, 1, 1, 1, 1, 0⟩)
        | .ok _ => (.ok (chatResult o lastUserMessage rewrittenQuery similarDocs),
                    ⟨1, 1, 1, 1, 1, 1⟩)
      else
        (.ok (chatResult o lastUserMessage rewrittenQuery similarDocs),
         ⟨1, 1, 1, 1, 0, 1⟩)

/-- The traced pipeline closure (route.ts lines 254-379).  The outer
condition of line 258 covers exactly the three short-circuit tokens, and
within it the three inner conditions are exhaustive; every other
classification string (RELEVANT as well as any unrecognized token) falls
through to the relevant branch. -/
def pipeline (o : Oracle) (lastUserMessage : String) :
    Except PipelineError PipelineResponse × CallCounts :=
  let relevanceResult := checkRelevance o.classifyContent
  if relevanceResult = "GREETING" ∨ relevanceResult = "INAPPROPRIATE" ∨
      relevanceResult = "NOT_RELEVANT" then
    if relevanceResult = "GREETING" then
      (.ok (greetingBranch o lastUserMessage), ⟨1, 0, 0, 0, 0, 1⟩)
    else if relevanceResult = "INAPPROPRIATE" then
      (.ok (inappropriateBranch lastUserMessage), ⟨1, 0, 0, 0, 0, 0⟩)
    else
      (.ok (notRelevantBranch o lastUserMessage), ⟨1, 0, 0, 0, 0, 1⟩)
  else
    relevantBranch o lastUserMessage

/-- The parsed request body: body falsy, messages missing or not an array,
or a messages array. -/
inductive ReqBody where
  | nullBody
  | noMessagesArray
  | withMessages (messages : List ChatHistory)
deriving DecidableEq, Repr

/-- The caller-visible outcome of POST. -/
inductive PostOutcome where
  | invalidJsonError
  | formatError
  | langsmithConfigError
  | internalError (e : PipelineError)
  | streamed (r : PipelineResponse)
deriving DecidableEq, Repr

/-- messages.findLast(msg => msg.role === user)?.content || '' (route.ts
lines 239-241). -/
def lastUserContent (messages : List ChatHistory) : String :=
  match messages.reverse.find? (fun m => m.role = "user") with
  | none => ""
  | some m => m.content

/-- Call counts of a request that never reaches the pipeline. -/
def emptyCounts : CallCounts := ⟨0, 0, 0, 0, 0, 0⟩

/-- The module-load check of route.ts lines 12-14: a warning is printed at
startup exactly when the LangSmith API key is absent or empty (JavaScript
falsiness of the environment variable). -/
def warnsAtStartup (langsmithApiKey : Option String) : Bool :=
  langsmithApiKey.getD "" = ""

/-- The POST handler (route.ts lines 213-436): JSON parse failure gives a
400, a falsy body or missing/non-array messages gives a 400, a falsy
LANGSMITH_API_KEY gives a 500 configuration error before the pipeline
runs, otherwise the pipeline runs on the last user message (empty string
when none exists) and its thrown errors become a 500 from the outer
catch. -/
def POST (langsmithApiKey : Option String) (o : Oracle) (body : Except Unit ReqBody) :
    PostOutcome × CallCounts :=
  match body with
  | .error _ => (.invalidJsonError, emptyCounts)
  | .ok .nullBody => (.formatError, emptyCounts)
  | .ok .noMessagesArray => (.formatError, emptyCounts)
  | .ok (.withMessages messages) =>
      let lastUserMessage := lastUserContent messages
      if langsmithApiKey.getD "" = "" then
        (.langsmithConfigError, emptyCounts)
      else
        match pipeline o lastUserMessage with
        | (.error e, c) => (.internalError e, c)
        | (.ok r, c) => (.streamed r, c)

/-! Concrete fixtures used to instantiate theorems on closed inputs. -/

/-- A baseline oracle: relevant classification, successful calls, empty
table. -/
def oBase : Oracle :=
  { classifyContent := some "RELEVANT",
    greetContent := some "hello there",
    notRelevantContent := some "please ask about woodworking",
    rewriteResp := .ok (some "Rewritten query: best glue for end grain"),
    embedResp := .ok [1, 0],
    dist := fun _ _ => 0,
    dbTable := [],
    linksResp := .ok "",
    generateContent := some "generated answer" }

/-- A table row with a non-null vector. -/
def rowGlue : DbRow :=
  { id := "1", text := "use titebond", title := "glue video", url := "http://v/1",
    chunk_id := "c1", vector := some [1, 0] }

/-- A table row with a NULL vector. -/
def rowNull : DbRow :=
  { id := "2", text := "t2", title := "v2", url := "http://v/2",
    chunk_id := "c2", vector := none }

/-- A six-message chat history, used to exercise the recency window. -/
def sixMessages : List ChatHistory :=
  [⟨"user", "m1"⟩, ⟨"assistant", "m2"⟩, ⟨"user", "m3"⟩,
   ⟨"assistant", "m4"⟩, ⟨"user", "m5"⟩, ⟨"assistant", "m6"⟩]

/-! Helper lemmas about the pipeline dispatch and the branch call
counts. -/

/-- Replacing the first occurrence of a pattern that the input starts with
removes exactly that occurrence. -/
theorem listReplaceFirst_append (pat rep rest : List Char) :
    listReplaceFirst pat rep (pat ++ rest) = rep ++ rest := by
  cases h : pat ++ rest with
  | nil =>
      rcases List.append_eq_nil.mp h with ⟨h1, h2⟩
      subst h1; subst h2
      simp [listReplaceFirst]
  | cons c cs =>
      have hpre : pat.isPrefixOf (c :: cs) = true := by
        rw [← h, List.isPrefixOf_iff_prefix]
        exact ⟨rest, rfl⟩
      rw [← h]
      cases hp : pat ++ rest with
      | nil => simp_all
      | cons d ds =>
          rw [hp] at h
          injection h with h1 h2
          subst h1; subst h2
          unfold listReplaceFirst
          rw [if_pos hpre, ← hp, List.drop_left]

/-- jsReplace strips a leading occurrence of the pattern. -/
theorem jsReplace_leading (pat rest : String) :
    jsReplace (pat ++ rest) pat "" = rest := by
  unfold jsReplace
  rw [String.data_append, listReplaceFirst_append]
  rfl

/-- Taking the last n elements twice is the same as taking them once. -/
theorem sliceLast_idem {α : Type} (n : Nat) (l : List α) :
    sliceLast n (sliceLast n l) = sliceLast n l := by
  unfold sliceLast
  have h : (l.drop (l.length - n)).length - n = 0 := by
    rw [List.length_drop]; omega
  rw [h, List.drop_zero]

/-- A GREETING classification short-circuits to the greeting branch. -/
theorem pipeline_greeting (o : Oracle) (q : String)
    (h : checkRelevance o.classifyContent = "GREETING") :
    pipeline o q = (.ok (greetingBranch o q), ⟨1, 0, 0, 0, 0, 1⟩) := by
  unfold pipeline
  rw [h]
  simp

/-- An INAPPROPRIATE classification short-circuits to the fixed static
answer. -/
theorem pipeline_inappropriate (o : Oracle) (q : String)
    (h : checkRelevance o.classifyContent = "INAPPROPRIATE") :
    pipeline o q = (.ok (inappropriateBranch q), ⟨1, 0, 0, 0, 0, 0⟩) := by
  unfold pipeline
  rw [h]
  simp

/-- A NOT_RELEVANT classification short-circuits to the deflection
branch. -/
theorem pipeline_notRelevant (o : Oracle) (q : String)
    (h : checkRelevance o.classifyContent = "NOT_RELEVANT") :
    pipeline o q = (.ok (notRelevantBranch o q), ⟨1, 0, 0, 0, 0, 1⟩) := by
  unfold pipeline
  rw [h]
  simp

/-- Every classification other than the three short-circuit tokens falls
through to the relevant branch. -/
theorem pipeline_eq_relevantBranch (o : Oracle) (q : String)
    (h1 : checkRelevance o.classifyContent ≠ "GREETING")
    (h2 : checkRelevance o.classifyContent ≠ "INAPPROPRIATE")
    (h3 : checkRelevance o.classifyContent ≠ "NOT_RELEVANT") :
    pipeline o q = relevantBranch o q := by
  unfold pipeline
  rw [if_neg]
  push_neg
  exact ⟨h1, h2, h3⟩

/-- The relevant branch produces one of four call-count vectors, each of
which attempts the classification, the rewrite and the embedding exactly
once. -/
theorem relevantBranch_counts (o : Oracle) (q : String) :
    (relevantBranch o q).2 = ⟨1, 1, 1, 0, 0, 0⟩ ∨
    (relevantBranch o q).2 = ⟨1, 1, 1, 1, 1, 0⟩ ∨
    (relevantBranch o q).2 = ⟨1, 1, 1, 1, 1, 1⟩ ∨
    (relevantBranch o q).2 = ⟨1, 1, 1, 1, 0, 1⟩ := by
  unfold relevantBranch
  rcases o.embedResp with e | emb
  · exact Or.inl rfl
  · dsimp only
    split
    · rcases o.linksResp with e | d
      · exact Or.inr (Or.inl rfl)
      · exact Or.inr (Or.inr (Or.inl rfl))
    · exact Or.inr (Or.inr (Or.inr rfl))

/-- The relevant branch always attempts the rewrite and the embedding. -/
theorem relevantBranch_embedCalls (o : Oracle) (q : String) :
    (relevantBranch o q).2.rewriteCalls = 1 ∧ (relevantBranch o q).2.embedCalls = 1 := by
  rcases relevantBranch_counts o q with h | h | h | h <;> rw [h] <;> exact ⟨rfl, rfl⟩

/-- The classifier completion call runs exactly once per pipeline
invocation. -/
theorem pipeline_classifyCalls (o : Oracle) (q : String) :
    (pipeline o q).2.classifyCalls = 1 := by
  by_cases h1 : checkRelevance o.classifyContent = "GREETING"
  · rw [pipeline_greeting o q h1]
  · by_cases h2 : checkRelevance o.classifyContent = "INAPPROPRIATE"
    · rw [pipeline_inappropriate o q h2]
    · by_cases h3 : checkRelevance o.classifyContent = "NOT_RELEVANT"
      · rw [pipeline_notRelevant o q h3]
      · rw [pipeline_eq_relevantBranch o q h1 h2 h3]
        rcases relevantBranch_counts o q with h | h | h | h <;> rw [h]

/-- With a successful embedding and an empty table, the relevant branch
retrieves nothing, skips the enrichment call and still generates the chat
answer. -/
theorem relevantBranch_emptyTable (o : Oracle) (q : String) (emb : List ℚ)
    (hemb : o.embedResp = .ok emb) (hdb : o.dbTable = []) :
    relevantBranch o q =
      (.ok (chatResult o q (rewriteQuery q o.rewriteResp) []), ⟨1, 1, 1, 1, 0, 1⟩) := by
  unfold relevantBranch
  rw [hemb, hdb]
  simp [searchNeonDb, assembleContext, jsJoin]

/-! Claim C1. -/

/-- C1 counterexample: the classifier parse does not map the unrecognized
response maybe to NOT_RELEVANT — it returns MAYBE verbatim — and on that
classification the pipeline takes the Relevant branch, invoking the query
rewrite and the embedding call. -/
theorem C1_counterexample :
    checkRelevance (some " maybe ") = "MAYBE" ∧
    checkRelevance (some " maybe ") ≠ "NOT_RELEVANT" ∧
    (pipeline { oBase with classifyContent := some " maybe " } "q").2.rewriteCalls = 1 ∧
    (pipeline { oBase with classifyContent := some " maybe " } "q").2.embedCalls = 1 := by
  refine ⟨by decide, by decide, ?_, ?_⟩ <;> decide

/-- C1 amended: a null classifier content, or one that trims and uppercases
to the empty string, is mapped to NOT_RELEVANT; every other response is
returned verbatim after trimming and uppercasing, and whenever that token
differs from the three short-circuit tokens — including every unparseable
token — the pipeline takes the Relevant branch and invokes the embedding
call. -/
theorem C1_amended (o : Oracle) (q c : String)
    (hc : o.classifyContent = some c)
    (h1 : jsToUpper (jsTrim c) ≠ "GREETING")
    (h2 : jsToUpper (jsTrim c) ≠ "INAPPROPRIATE")
    (h3 : jsToUpper (jsTrim c) ≠ "NOT_RELEVANT") :
    checkRelevance none = "NOT_RELEVANT" ∧
    (jsToUpper (jsTrim c) = "" → checkRelevance (some c) = "NOT_RELEVANT") ∧
    (jsToUpper (jsTrim c) ≠ "" →
      checkRelevance (some c) = jsToUpper (jsTrim c) ∧
      pipeline o q = relevantBranch o q ∧
      (pipeline o q).2.embedCalls = 1) := by
  refine ⟨rfl, ?_, ?_⟩
  · intro ht
    simp [checkRelevance, ht]
  · intro ht
    have hcr : checkRelevance (some c) = jsToUpper (jsTrim c) := by
      simp [checkRelevance, ht]
    have hco : checkRelevance o.classifyContent = jsToUpper (jsTrim c) := by
      rw [hc]; exact hcr
    have hpe : pipeline o q = relevantBranch o q := by
      refine pipeline_eq_relevantBranch o q ?_ ?_ ?_ <;> rw [hco]
      · exact h1
      · exact h2
      · exact h3
    refine ⟨hcr, hpe, ?_⟩
    rw [hpe]
    exact (relevantBranch_embedCalls o q).2

/-- C1 witness: the amended statement at the concrete unparseable response
maybe. -/
theorem C1_witness :
    checkRelevance none = "NOT_RELEVANT" ∧
    (jsToUpper (jsTrim " maybe ") = "" →
      checkRelevance (some " maybe ") = "NOT_RELEVANT") ∧
    (jsToUpper (jsTrim " maybe ") ≠ "" →
      checkRelevance (some " maybe ") = jsToUpper (jsTrim " maybe ") ∧
      pipeline { oBase with classifyContent := some " maybe " } "q" =
        relevantBranch { oBase with classifyContent := some " maybe " } "q" ∧
      (pipeline { oBase with classifyContent := some " maybe " } "q").2.embedCalls = 1) :=
  C1_amended { oBase with classifyContent := some " maybe " } "q" " maybe "
    rfl (by decide) (by decide) (by decide)

/-! Claim C2. -/

/-- C2 counterexample: on a Relevant request with a nonempty retrieval
result, a throwing enrichment (links) fetch aborts the pipeline with
linksFailure before any answer is generated, and the caller receives a 500
instead of the answer. -/
theorem C2_counterexample :
    (pipeline { oBase with dbTable := [rowGlue], linksResp := .error () } "q").1 =
      .error .linksFailure ∧
    (POST (some "key") { oBase with dbTable := [rowGlue], linksResp := .error () }
        (.ok (.withMessages [⟨"user", "q"⟩]))).1 = .internalError .linksFailure := by
  constructor <;> rfl

/-- C2 amended: on the Relevant branch the enrichment payload is
discarded, so any two successful enrichment outcomes yield the identical
PipelineResult; but the call is not failure-isolated: when the fetch
throws while the assembled context is nonempty, the pipeline aborts with
an error and no answer is produced. -/
theorem C2_amended (o : Oracle) (q : String) (emb : List ℚ) (d d' : String)
    (h1 : checkRelevance o.classifyContent ≠ "GREETING")
    (h2 : checkRelevance o.classifyContent ≠ "INAPPROPRIATE")
    (h3 : checkRelevance o.classifyContent ≠ "NOT_RELEVANT")
    (hemb : o.embedResp = .ok emb)
    (hctx : assembleContext (searchNeonDb o.dist emb o.dbTable 10) ≠ "")
    (hlink : o.linksResp = .error ()) :
    pipeline { o with linksResp := .ok d } q = pipeline { o with linksResp := .ok d' } q ∧
    (pipeline o q).1 = .error .linksFailure := by
  constructor
  · have e1 := pipeline_eq_relevantBranch { o with linksResp := .ok d } q h1 h2 h3
    have e2 := pipeline_eq_relevantBranch { o with linksResp := .ok d' } q h1 h2 h3
    rw [e1, e2]
    unfold relevantBranch
    dsimp only
    rw [hemb]
    dsimp only
    rw [if_pos hctx, if_pos hctx]
    rfl
  · rw [pipeline_eq_relevantBranch o q h1 h2 h3]
    unfold relevantBranch
    rw [hemb]
    dsimp only
    rw [if_pos hctx, hlink]

/-- C2 witness: the amended statement at a concrete relevant request with
one retrieved document and a throwing enrichment fetch. -/
theorem C2_witness :
    pipeline { { oBase with dbTable := [rowGlue], linksResp := .error () } with
        linksResp := .ok "a" } "q" =
      pipeline { { oBase with dbTable := [rowGlue], linksResp := .error () } with
        linksResp := .ok "b" } "q" ∧
    (pipeline { oBase with dbTable := [rowGlue], linksResp := .error () } "q").1 =
      .error .linksFailure :=
  C2_amended { oBase with dbTable := [rowGlue], linksResp := .error () } "q" [1, 0] "a" "b"
    (by decide) (by decide) (by decide) rfl (by decide) rfl

/-! Claim C3. -/

/-- C3 counterexample: with no LangSmith API key, a well-formed request is
rejected with a 500 LangSmith configuration error and no pipeline stage
runs — the caller receives an error response, not the normal answer. -/
theorem C3_counterexample :
    warnsAtStartup none = true ∧
    POST none oBase (.ok (.withMessages [⟨"user", "hi"⟩])) =
      (.langsmithConfigError, emptyCounts) := by
  constructor <;> rfl

/-- C3 amended: absence (or emptiness) of the LangSmith API key logs a
warning at startup, but does not degrade tracing to a no-op: every
well-formed request is then answered with a 500 LangSmith configuration
error before the pipeline runs, so the caller receives an error response
instead of the normal answer. -/
theorem C3_amended (k : Option String) (o : Oracle) (messages : List ChatHistory)
    (hk : k.getD "" = "") :
    warnsAtStartup k = true ∧
    POST k o (.ok (.withMessages messages)) = (.langsmithConfigError, emptyCounts) := by
  constructor
  · simp [warnsAtStartup, hk]
  · unfold POST
    dsimp only
    rw [if_pos hk]

/-- C3 witness: the amended statement for an absent key and a concrete
request. -/
theorem C3_witness :
    warnsAtStartup none = true ∧
    POST none oBase (.ok (.withMessages [⟨"user", "what glue?"⟩])) =
      (.langsmithConfigError, emptyCounts) :=
  C3_amended none oBase [⟨"user", "what glue?"⟩] rfl

/-! Claim C4. -/

/-- C4 counterexample: a request whose messages array is empty (hence
whose query string is empty) is not rejected as a validation error — the
pipeline runs and the relevance classifier is invoked once, on the empty
query. -/
theorem C4_counterexample :
    lastUserContent [] = "" ∧
    (POST (some "key") { oBase with classifyContent := some "NOT_RELEVANT" }
        (.ok (.withMessages []))).1 ≠ .formatError ∧
    (POST (some "key") { oBase with classifyContent := some "NOT_RELEVANT" }
        (.ok (.withMessages []))).2.classifyCalls = 1 := by
  refine ⟨rfl, ?_, ?_⟩ <;> decide

/-- C4 amended: only an unparseable JSON body, a falsy body, or a missing
or non-array messages field yields a 400 validation error with the
classifier never invoked; an empty messages array, or a nonempty one with
an empty last-user-message content, is not rejected — when the LangSmith
key is set, the pipeline runs and the relevance classifier is invoked
exactly once (on the empty query string). -/
theorem C4_amended (k : Option String) (o : Oracle) (messages : List ChatHistory)
    (hk : k.getD "" ≠ "") :
    POST k o (.error ()) = (.invalidJsonError, emptyCounts) ∧
    POST k o (.ok .nullBody) = (.formatError, emptyCounts) ∧
    POST k o (.ok .noMessagesArray) = (.formatError, emptyCounts) ∧
    lastUserContent [] = "" ∧
    (POST k o (.ok (.withMessages messages))).2.classifyCalls = 1 := by
  refine ⟨rfl, rfl, rfl, rfl, ?_⟩
  unfold POST
  dsimp only
  rw [if_neg hk]
  rcases hp : pipeline o (lastUserContent messages) with ⟨res, c⟩
  have hc : c.classifyCalls = 1 := by
    have := pipeline_classifyCalls o (lastUserContent messages)
    rw [hp] at this
    exact this
  rcases res with e | r <;> simpa using hc

/-- C4 witness: the amended statement at a configured key and an empty
messages array. -/
theorem C4_witness :
    POST (some "key") { oBase with classifyContent := some "NOT_RELEVANT" } (.error ()) =
      (.invalidJsonError, emptyCounts) ∧
    POST (some "key") { oBase with classifyContent := some "NOT_RELEVANT" } (.ok .nullBody) =
      (.formatError, emptyCounts) ∧
    POST (some "key") { oBase with classifyContent := some "NOT_RELEVANT" }
        (.ok .noMessagesArray) = (.formatError, emptyCounts) ∧
    lastUserContent [] = "" ∧
    (POST (some "key") { oBase with classifyContent := some "NOT_RELEVANT" }
        (.ok (.withMessages []))).2.classifyCalls = 1 :=
  C4_amended (some "key") { oBase with classifyContent := some "NOT_RELEVANT" } []
    (by decide)


/-! Claim C5. -/

set_option maxRecDepth 40000 in
/-- C5 counterexample: on a six-message history the rewrite prompt differs
from the rewrite prompt built from only the final five messages — the
rewriting stage receives the full history, not the recency window. -/
theorem C5_counterexample :
    rewritePrompt "q" sixMessages ≠ rewritePrompt "q" (sliceLast 5 sixMessages) := by
  decide

/-- The JSON encoding of a chat message is a nonempty string (its fixed
framing alone is 24 characters). -/
theorem stringifyMessage_length_pos (m : ChatHistory) : 1 ≤ (stringifyMessage m).length := by
  have h9 : ("\x7b\"role\":\"" : String).length = 9 := rfl
  unfold stringifyMessage
  rw [String.length_append, String.length_append, String.length_append,
    String.length_append, h9]
  omega

/-- Dropping at least one leading element from a nonempty list of nonempty
strings strictly shortens the joined string. -/
theorem jsJoin_drop_length_lt (sep : String) :
    ∀ (l : List String) (k : Nat), l ≠ [] → (∀ s ∈ l, 1 ≤ s.length) →
      (jsJoin sep (l.drop (k + 1))).length < (jsJoin sep l).length := by
  intro l
  induction l with
  | nil =>
      intro k hne _
      exact absurd rfl hne
  | cons a l2 ih =>
      intro k _ hel
      cases l2 with
      | nil =>
          have hd : ([a] : List String).drop (k + 1) = [] := by simp
          have h0 : (jsJoin sep ([] : List String)).length = 0 := rfl
          have h1 : (jsJoin sep [a]).length = a.length := rfl
          rw [hd, h0, h1]
          have ha := hel a (by simp)
          omega
      | cons b t =>
          have he : jsJoin sep (a :: b :: t) = a ++ sep ++ jsJoin sep (b :: t) := rfl
          have hstep : (jsJoin sep (a :: b :: t)).length =
              a.length + sep.length + (jsJoin sep (b :: t)).length := by
            rw [he, String.length_append, String.length_append]
          have hd : (a :: b :: t).drop (k + 1) = (b :: t).drop k := rfl
          rw [hd]
          have ha := hel a (by simp)
          cases k with
          | zero =>
              rw [List.drop_zero]
              omega
          | succ k2 =>
              have h2 := ih k2 (by simp) (fun s hs => hel s (List.mem_cons_of_mem a hs))
              omega

/-- C5 amended: the classification prompt and the generation prompt depend
only on the final 5 most recent chat-history messages, but the rewrite
prompt receives the full history and differs from the five-message window
whenever the history is longer than 5 messages. -/
theorem C5_amended (q ctx : String) (h : List ChatHistory) :
    relevancePrompt q h = relevancePrompt q (sliceLast 5 h) ∧
    generationUserPrompt h ctx q = generationUserPrompt (sliceLast 5 h) ctx q ∧
    (∀ q2 : String, ∀ h2 : List ChatHistory, 5 < h2.length →
      rewritePrompt q2 h2 ≠ rewritePrompt q2 (sliceLast 5 h2)) := by
  refine ⟨?_, ?_, ?_⟩
  · unfold relevancePrompt
    rw [sliceLast_idem]
  · unfold generationUserPrompt
    rw [sliceLast_idem]
  · intro q2 h2 hlen heq
    have hL := congrArg String.length heq
    simp only [rewritePrompt, String.length_append] at hL
    have hsh : (stringifyHistory h2).length =
        (stringifyHistory (sliceLast 5 h2)).length := by
      omega
    simp only [stringifyHistory, String.length_append] at hsh
    have hmap : (sliceLast 5 h2).map stringifyMessage =
        (h2.map stringifyMessage).drop (h2.length - 5) := by
      unfold sliceLast
      exact List.map_drop stringifyMessage h2 (h2.length - 5)
    rw [hmap] at hsh
    have hne : h2.map stringifyMessage ≠ [] := by
      intro hc
      have hlm := List.length_map h2 stringifyMessage
      rw [hc] at hlm
      simp at hlm
      omega
    have hel : ∀ s ∈ h2.map stringifyMessage, 1 ≤ s.length := by
      intro s hs
      rw [List.mem_map] at hs
      rcases hs with ⟨m, _, rfl⟩
      exact stringifyMessage_length_pos m
    have hk : h2.length - 5 = (h2.length - 6) + 1 := by omega
    have hlt := jsJoin_drop_length_lt "," (h2.map stringifyMessage) (h2.length - 6) hne hel
    rw [← hk] at hlt
    omega

/-- C5 witness: the amended statement instantiated at a concrete query,
context and six-message history. -/
theorem C5_witness :
    relevancePrompt "q" sixMessages = relevancePrompt "q" (sliceLast 5 sixMessages) ∧
    generationUserPrompt sixMessages "" "q" =
      generationUserPrompt (sliceLast 5 sixMessages) "" "q" ∧
    (∀ q2 : String, ∀ h2 : List ChatHistory, 5 < h2.length →
      rewritePrompt q2 h2 ≠ rewritePrompt q2 (sliceLast 5 h2)) :=
  C5_amended "q" "" sixMessages

/-! Claim C6. -/

/-- C6: on every short-circuit classification (GREETING, INAPPROPRIATE,
NOT_RELEVANT) the embedding and vector-search operations are never
invoked; the INAPPROPRIATE branch makes no further completion call and
returns the fixed static apology string, while the GREETING and
NOT_RELEVANT branches each make exactly one additional completion call. -/
theorem C6_theorem (o : Oracle) (q : String)
    (h : checkRelevance o.classifyContent = "GREETING" ∨
         checkRelevance o.classifyContent = "INAPPROPRIATE" ∨
         checkRelevance o.classifyContent = "NOT_RELEVANT") :
    (pipeline o q).2.embedCalls = 0 ∧ (pipeline o q).2.searchCalls = 0 ∧
    (checkRelevance o.classifyContent = "INAPPROPRIATE" →
      (pipeline o q).2.rewriteCalls = 0 ∧ (pipeline o q).2.answerCalls = 0 ∧
      (pipeline o q).1 = .ok (inappropriateBranch q) ∧
      (inappropriateBranch q).text = inappropriateAnswer) ∧
    ((checkRelevance o.classifyContent = "GREETING" ∨
      checkRelevance o.classifyContent = "NOT_RELEVANT") →
      (pipeline o q).2.rewriteCalls = 0 ∧ (pipeline o q).2.answerCalls = 1) := by
  rcases h with hg | hi | hn
  · rw [pipeline_greeting o q hg]
    refine ⟨rfl, rfl, ?_, ?_⟩
    · intro hi
      rw [hg] at hi
      exact absurd hi (by decide)
    · intro _
      exact ⟨rfl, rfl⟩
  · rw [pipeline_inappropriate o q hi]
    refine ⟨rfl, rfl, ?_, ?_⟩
    · intro _
      exact ⟨rfl, rfl, rfl, rfl⟩
    · intro hgn
      rcases hgn with hg | hn
      · rw [hi] at hg
        exact absurd hg (by decide)
      · rw [hi] at hn
        exact absurd hn (by decide)
  · rw [pipeline_notRelevant o q hn]
    refine ⟨rfl, rfl, ?_, ?_⟩
    · intro hi
      rw [hn] at hi
      exact absurd hi (by decide)
    · intro _
      exact ⟨rfl, rfl⟩

/-- C6 witness: the statement at a concrete GREETING classification. -/
theorem C6_witness :
    (pipeline { oBase with classifyContent := some "GREETING" } "hi").2.embedCalls = 0 ∧
    (pipeline { oBase with classifyContent := some "GREETING" } "hi").2.searchCalls = 0 ∧
    (checkRelevance ({ oBase with classifyContent := some "GREETING" } : Oracle).classifyContent = "INAPPROPRIATE" →
      (pipeline { oBase with classifyContent := some "GREETING" } "hi").2.rewriteCalls = 0 ∧
      (pipeline { oBase with classifyContent := some "GREETING" } "hi").2.answerCalls = 0 ∧
      (pipeline { oBase with classifyContent := some "GREETING" } "hi").1 =
        .ok (inappropriateBranch "hi") ∧
      (inappropriateBranch "hi").text = inappropriateAnswer) ∧
    ((checkRelevance ({ oBase with classifyContent := some "GREETING" } : Oracle).classifyContent = "GREETING" ∨
      checkRelevance ({ oBase with classifyContent := some "GREETING" } : Oracle).classifyContent = "NOT_RELEVANT") →
      (pipeline { oBase with classifyContent := some "GREETING" } "hi").2.rewriteCalls = 0 ∧
      (pipeline { oBase with classifyContent := some "GREETING" } "hi").2.answerCalls = 1) :=
  C6_theorem { oBase with classifyContent := some "GREETING" } "hi" (Or.inl (by decide))

/-! Claim C7. -/

/-- C7: when the rewrite completion call throws, rewriteQuery returns the
original unmodified query and the pipeline still proceeds to retrieval
(the embedding call runs, and any successful PipelineResult carries the
original query as the rewritten query); on success the code strips a
literal leading Rewritten-query label from the model output (falling back
to the original query when nothing remains). -/
theorem C7_theorem (o : Oracle) (q rest : String)
    (h1 : checkRelevance o.classifyContent ≠ "GREETING")
    (h2 : checkRelevance o.classifyContent ≠ "INAPPROPRIATE")
    (h3 : checkRelevance o.classifyContent ≠ "NOT_RELEVANT")
    (hrw : o.rewriteResp = .error ()) :
    rewriteQuery q (.error ()) = q ∧
    rewriteQuery q (.ok (some ("Rewritten query:" ++ rest))) =
      (if jsTrim rest = "" then q else jsTrim rest) ∧
    (pipeline o q).2.rewriteCalls = 1 ∧ (pipeline o q).2.embedCalls = 1 ∧
    (∀ r c, pipeline o q = (.ok r, c) → r.metadata.rewrittenQuery = q) := by
  have hpe := pipeline_eq_relevantBranch o q h1 h2 h3
  refine ⟨rfl, ?_, ?_, ?_, ?_⟩
  · unfold rewriteQuery
    dsimp only
    rw [jsReplace_leading]
  · rw [hpe]
    exact (relevantBranch_embedCalls o q).1
  · rw [hpe]
    exact (relevantBranch_embedCalls o q).2
  · intro r c hp
    rw [hpe] at hp
    unfold relevantBranch at hp
    rw [hrw] at hp
    rcases he : o.embedResp with u | emb <;> rw [he] at hp <;> dsimp only at hp
    · exact absurd hp (by simp)
    · split at hp
      · rcases hl : o.linksResp with u | dd <;> rw [hl] at hp <;> dsimp only at hp
        · exact absurd hp (by simp)
        · simp only [Prod.mk.injEq, Except.ok.injEq] at hp
          rw [← hp.1]
          rfl
      · simp only [Prod.mk.injEq, Except.ok.injEq] at hp
        rw [← hp.1]
        rfl

/-- C7 witness: the statement at a concrete relevant request whose rewrite
call throws. -/
theorem C7_witness :
    rewriteQuery "q" (.error ()) = "q" ∧
    rewriteQuery "q" (.ok (some ("Rewritten query:" ++ " best glue"))) =
      (if jsTrim " best glue" = "" then "q" else jsTrim " best glue") ∧
    (pipeline { oBase with rewriteResp := .error () } "q").2.rewriteCalls = 1 ∧
    (pipeline { oBase with rewriteResp := .error () } "q").2.embedCalls = 1 ∧
    (∀ r c, pipeline { oBase with rewriteResp := .error () } "q" = (.ok r, c) →
      r.metadata.rewrittenQuery = "q") :=
  C7_theorem { oBase with rewriteResp := .error () } "q" " best glue"
    (by decide) (by decide) (by decide) rfl

/-! Claim C8. -/

/-- C8: context assembly is a pure function of the retrieved documents —
the empty sequence yields the empty string, one document yields exactly
its 3-line block, and blocks are joined by a blank line in input order;
and an empty context does not block answer generation: a relevant request
against an empty table still yields the chat PipelineResult (with one
generation call and the enrichment call skipped). -/
theorem C8_theorem (d : Document) (ds : List Document) (o : Oracle) (q : String)
    (emb : List ℚ)
    (h1 : checkRelevance o.classifyContent ≠ "GREETING")
    (h2 : checkRelevance o.classifyContent ≠ "INAPPROPRIATE")
    (h3 : checkRelevance o.classifyContent ≠ "NOT_RELEVANT")
    (hemb : o.embedResp = .ok emb) (hdb : o.dbTable = []) :
    assembleContext [] = "" ∧
    assembleContext [d] =
      "Source: " ++ d.title ++ "\nContent: " ++ d.text ++ "\nURL: " ++ d.url ∧
    (ds ≠ [] → assembleContext (d :: ds) =
      ("Source: " ++ d.title ++ "\nContent: " ++ d.text ++ "\nURL: " ++ d.url) ++
        "\n\n" ++ assembleContext ds) ∧
    (pipeline o q).1 = .ok (chatResult o q (rewriteQuery q o.rewriteResp) []) ∧
    (chatResult o q (rewriteQuery q o.rewriteResp) []).type = "chat" ∧
    (chatResult o q (rewriteQuery q o.rewriteResp) []).metadata.contextCount = 0 ∧
    (pipeline o q).2.answerCalls = 1 ∧ (pipeline o q).2.linksCalls = 0 := by
  have hpe := pipeline_eq_relevantBranch o q h1 h2 h3
  have hrb := relevantBranch_emptyTable o q emb hemb hdb
  refine ⟨rfl, rfl, ?_, ?_, rfl, rfl, ?_, ?_⟩
  · intro hds
    rcases ds with _ | ⟨e, es⟩
    · exact absurd rfl hds
    · rfl
  · rw [hpe, hrb]
  · rw [hpe, hrb]
  · rw [hpe, hrb]

/-- C8 witness: the statement at a concrete document pair and a concrete
relevant request over an empty table. -/
theorem C8_witness :
    assembleContext [] = "" ∧
    assembleContext [⟨"1", "use titebond", "glue video", "http://v/1", "c1", 1⟩] =
      "Source: " ++ "glue video" ++ "\nContent: " ++ "use titebond" ++ "\nURL: " ++
        "http://v/1" ∧
    (([⟨"2", "t2", "v2", "http://v/2", "c2", 1⟩] : List Document) ≠ [] →
      assembleContext [⟨"1", "use titebond", "glue video", "http://v/1", "c1", 1⟩,
          ⟨"2", "t2", "v2", "http://v/2", "c2", 1⟩] =
        ("Source: " ++ "glue video" ++ "\nContent: " ++ "use titebond" ++ "\nURL: " ++
          "http://v/1") ++ "\n\n" ++
          assembleContext [⟨"2", "t2", "v2", "http://v/2", "c2", 1⟩]) ∧
    (pipeline oBase "q").1 = .ok (chatResult oBase "q" (rewriteQuery "q" oBase.rewriteResp) []) ∧
    (chatResult oBase "q" (rewriteQuery "q" oBase.rewriteResp) []).type = "chat" ∧
    (chatResult oBase "q" (rewriteQuery "q" oBase.rewriteResp) []).metadata.contextCount = 0 ∧
    (pipeline oBase "q").2.answerCalls = 1 ∧ (pipeline oBase "q").2.linksCalls = 0 :=
  C8_theorem ⟨"1", "use titebond", "glue video", "http://v/1", "c1", 1⟩
    [⟨"2", "t2", "v2", "http://v/2", "c2", 1⟩] oBase "q" [1, 0]
    (by decide) (by decide) (by decide) rfl rfl

/-! Claim C9. -/

/-- C9: for every distance operator, embedding and table, the vector
search returns at most topK documents, ordered by ascending distance and
hence non-increasing similarity score (1 minus the distance); every
returned document comes from a table row whose vector column is not NULL
and carries the fields and score of that row; and when no row qualifies the
result is the empty sequence rather than an error. -/
theorem C9_theorem (dist : List ℚ → List ℚ → ℚ) (emb : List ℚ)
    (table : List DbRow) (topK : Nat) :
    (searchNeonDb dist emb table topK).length ≤ topK ∧
    List.Pairwise (fun a b : Document => b.similarity_score ≤ a.similarity_score)
      (searchNeonDb dist emb table topK) ∧
    (∀ d ∈ searchNeonDb dist emb table topK, ∃ r ∈ table, r.vector.isSome ∧
      d = { id := r.id, text := r.text, title := r.title, url := r.url,
            chunk_id := r.chunk_id,
            similarity_score := 1 - dist (r.vector.getD []) emb }) ∧
    ((∀ r ∈ table, r.vector = none) → searchNeonDb dist emb table topK = []) := by
  refine ⟨?_, ?_, ?_, ?_⟩
  · unfold searchNeonDb
    dsimp only
    rw [List.length_map]
    exact List.length_take_le _ _
  · unfold searchNeonDb
    dsimp only
    rw [List.pairwise_map]
    have hsorted : List.Pairwise
        (fun a b : DbRow =>
          dist (a.vector.getD []) emb ≤ dist (b.vector.getD []) emb)
        (List.insertionSort
          (fun a b : DbRow =>
            dist (a.vector.getD []) emb ≤ dist (b.vector.getD []) emb)
          (table.filter fun r => r.vector.isSome)) := by
      haveI : IsTotal DbRow (fun a b : DbRow =>
          dist (a.vector.getD []) emb ≤ dist (b.vector.getD []) emb) :=
        ⟨fun a b => le_total _ _⟩
      haveI : IsTrans DbRow (fun a b : DbRow =>
          dist (a.vector.getD []) emb ≤ dist (b.vector.getD []) emb) :=
        ⟨fun _ _ _ hab hbc => le_trans hab hbc⟩
      exact List.sorted_insertionSort _ _
    exact (hsorted.sublist (List.take_sublist _ _)).imp fun hab =>
      sub_le_sub_left hab 1
  · intro d hd
    unfold searchNeonDb at hd
    dsimp only at hd
    rw [List.mem_map] at hd
    rcases hd with ⟨r, hr, rfl⟩
    have hr2 := List.mem_of_mem_take hr
    rw [List.mem_insertionSort] at hr2
    rw [List.mem_filter] at hr2
    exact ⟨r, hr2.1, hr2.2, rfl⟩
  · intro hall
    unfold searchNeonDb
    dsimp only
    have hfil : (table.filter fun r => r.vector.isSome) = [] := by
      rw [List.filter_eq_nil_iff]
      intro r hr
      rw [hall r hr]
      exact fun hc => by simp at hc
    rw [hfil]
    simp

/-- C9 witness: the statement at a concrete distance function, embedding
and two-row table (one NULL vector, one non-NULL). -/
theorem C9_witness :
    (searchNeonDb (fun _ _ => 0) [1, 0] [rowGlue, rowNull] 10).length ≤ 10 ∧
    List.Pairwise (fun a b : Document => b.similarity_score ≤ a.similarity_score)
      (searchNeonDb (fun _ _ => 0) [1, 0] [rowGlue, rowNull] 10) ∧
    (∀ d ∈ searchNeonDb (fun _ _ => 0) [1, 0] [rowGlue, rowNull] 10,
      ∃ r ∈ [rowGlue, rowNull], r.vector.isSome ∧
        d = { id := r.id, text := r.text, title := r.title, url := r.url,
              chunk_id := r.chunk_id,
              similarity_score := 1 - (fun _ _ => (0 : ℚ)) (r.vector.getD []) [1, 0] }) ∧
    ((∀ r ∈ [rowGlue, rowNull], r.vector = none) →
      searchNeonDb (fun _ _ => 0) [1, 0] [rowGlue, rowNull] 10 = []) :=
  C9_theorem (fun _ _ => 0) [1, 0] [rowGlue, rowNull] 10

/-! Claim C10. -/

/-- C10: every successfully produced PipelineResult, on all four branches,
satisfies metadata.output = text and metadata.responseType = type; and on
the three short-circuit branches the metadata records zero context
documents and an empty rewritten query. -/
theorem C10_theorem (o : Oracle) (q : String) (r : PipelineResponse) (c : CallCounts)
    (h : pipeline o q = (.ok r, c)) :
    r.metadata.output = r.text ∧ r.metadata.responseType = r.type ∧
    ((r.type = "greeting" ∨ r.type = "inappropriate" ∨ r.type = "not-relevant") →
      r.metadata.contextCount = 0 ∧ r.metadata.rewrittenQuery = "") := by
  by_cases h1 : checkRelevance o.classifyContent = "GREETING"
  · rw [pipeline_greeting o q h1] at h
    simp only [Prod.mk.injEq, Except.ok.injEq] at h
    rw [← h.1]
    exact ⟨rfl, rfl, fun _ => ⟨rfl, rfl⟩⟩
  · by_cases h2 : checkRelevance o.classifyContent = "INAPPROPRIATE"
    · rw [pipeline_inappropriate o q h2] at h
      simp only [Prod.mk.injEq, Except.ok.injEq] at h
      rw [← h.1]
      exact ⟨rfl, rfl, fun _ => ⟨rfl, rfl⟩⟩
    · by_cases h3 : checkRelevance o.classifyContent = "NOT_RELEVANT"
      · rw [pipeline_notRelevant o q h3] at h
        simp only [Prod.mk.injEq, Except.ok.injEq] at h
        rw [← h.1]
        exact ⟨rfl, rfl, fun _ => ⟨rfl, rfl⟩⟩
      · rw [pipeline_eq_relevantBranch o q h1 h2 h3] at h
        unfold relevantBranch at h
        rcases he : o.embedResp with u | emb <;> rw [he] at h <;> dsimp only at h
        · exact absurd h (by simp)
        · split at h
          · rcases hl : o.linksResp with u | dd <;> rw [hl] at h <;> dsimp only at h
            · exact absurd h (by simp)
            · simp only [Prod.mk.injEq, Except.ok.injEq] at h
              rw [← h.1]
              refine ⟨rfl, rfl, ?_⟩
              intro hty
              have hct : (chatResult o q (rewriteQuery q o.rewriteResp)
                  (searchNeonDb o.dist emb o.dbTable 10)).type = "chat" := rfl
              rw [hct] at hty
              rcases hty with ht | ht | ht <;> exact absurd ht (by decide)
          · simp only [Prod.mk.injEq, Except.ok.injEq] at h
            rw [← h.1]
            refine ⟨rfl, rfl, ?_⟩
            intro hty
            have hct : (chatResult o q (rewriteQuery q o.rewriteResp)
                (searchNeonDb o.dist emb o.dbTable 10)).type = "chat" := rfl
            rw [hct] at hty
            rcases hty with ht | ht | ht <;> exact absurd ht (by decide)

/-- C10 witness: the statement at a concrete greeting request. -/
theorem C10_witness :
    (greetingBranch { oBase with classifyContent := some "GREETING" } "hi").metadata.output =
      (greetingBranch { oBase with classifyContent := some "GREETING" } "hi").text ∧
    (greetingBranch { oBase with classifyContent := some "GREETING" } "hi").metadata.responseType =
      (greetingBranch { oBase with classifyContent := some "GREETING" } "hi").type ∧
    (((greetingBranch { oBase with classifyContent := some "GREETING" } "hi").type = "greeting" ∨
      (greetingBranch { oBase with classifyContent := some "GREETING" } "hi").type = "inappropriate" ∨
      (greetingBranch { oBase with classifyContent := some "GREETING" } "hi").type = "not-relevant") →
      (greetingBranch { oBase with classifyContent := some "GREETING" } "hi").metadata.contextCount = 0 ∧
      (greetingBranch { oBase with classifyContent := some "GREETING" } "hi").metadata.rewrittenQuery = "") :=
  C10_theorem { oBase with classifyContent := some "GREETING" } "hi"
    (greetingBranch { oBase with classifyContent := some "GREETING" } "hi")
    ⟨1, 0, 0, 0, 0, 1⟩ rfl

end ChatRoute
